import Mathlib

/-!
Verification development for the photonic-circuit structure library
(`src/structures.py` of streamlit-photonic-circuits).

The leaf structures (`Waveguide`, `Source`, `DirectionalCoupler`) and the
composite structures (`RingResonator`, `AddDropFilter`) are embedded as Lean
structures; their `field_equations` methods become functions producing lists
of linear equations, each equation a list of (pin, complex coefficient)
pairs (the Python code uses a dict from `Pin` to coefficient).

The Python code computes frequency-dependent coefficients vectorized over a
numpy array `angular_frequencies`; here the per-sample semantics is modelled
by passing the angular frequency `ω` as an explicit argument, and the sweep
is kept as a `List ℝ` field.

The base module (`src/base.py`: `Pin`, `BaseStructure`, `CompositeStructure`
and the linear solve behind the `fields` property) is not part of the source
snapshot; the few facts needed about it are modelled from the design
specification and marked `Modelled from the spec:` in their doc comments.
-/

/-- Pin identity: the spec (§3) makes a `Pin` a globally unique integer
identity used purely as a lookup key. -/
abbrev Pin := ℕ

/-- Speed of light in vacuum, `scipy.constants.c` (m/s). -/
def c : ℝ := 299792458

/-- One linear field equation: the Python `dict` from `Pin` to complex
coefficient, kept as an association list in source order. -/
abbrev FieldEquation := List (Pin × ℂ)

/-- Evaluate the left-hand side of a field equation at an assignment of
complex amplitudes to pins: the sum over all (pin, coefficient) pairs of
the coefficient times that pin's amplitude (spec §3 "Field equation"). -/
def FieldEquation.eval (e : FieldEquation) (A : Pin → ℂ) : ℂ :=
  (e.map fun pc => pc.2 * A pc.1).sum

/-- `Waveguide` (src/structures.py lines 8-53): a 2-pin leaf structure.
`pins` is the fixed-length pin sequence (`num_pins = 2`). -/
structure Waveguide where
  length : ℝ
  effective_refractive_index : ℝ
  group_refractive_index : ℝ
  GVD : ℝ
  loss_dB : ℝ
  central_wavelength : ℝ
  angular_frequencies : List ℝ
  pins : Fin 2 → Pin

def Waveguide.num_pins : ℕ := 2

def Waveguide.num_equations : ℕ := 1

/-- `self.central_frequency = 2 * np.pi / central_wavelength * c`
(line 31). -/
noncomputable def Waveguide.central_frequency (w : Waveguide) : ℝ :=
  2 * Real.pi / w.central_wavelength * c

/-- `Waveguide.wavevector` (lines 33-40): second-order Taylor expansion of
the wavevector in the angular frequency, evaluated at a single sample `ω`
(the source computes it vectorized over `angular_frequencies`). -/
noncomputable def Waveguide.wavevector (w : Waveguide) (ω : ℝ) : ℝ :=
  w.effective_refractive_index * w.central_frequency / c
    + w.group_refractive_index * (ω - w.central_frequency) / c
    + 1 / 2 * w.GVD * (ω - w.central_frequency) ^ 2

/-- `loss_amplitude_coefficient = np.exp(-self.loss_dB * np.log(10) / 20 *
self.length)` (line 44). -/
noncomputable def Waveguide.loss_amplitude_coefficient (w : Waveguide) : ℝ :=
  Real.exp (-w.loss_dB * Real.log 10 / 20 * w.length)

/-- `Waveguide.field_equations` (lines 42-49), per frequency sample:
one equation `pins[0] ↦ -loss_amplitude * exp(1j * wavevector * length),
pins[1] ↦ 1`. -/
noncomputable def Waveguide.field_equations (w : Waveguide) (ω : ℝ) : List FieldEquation :=
  [[(w.pins 0,
      -(w.loss_amplitude_coefficient : ℂ)
        * Complex.exp (Complex.I * (w.wavevector ω : ℝ) * (w.length : ℝ))),
    (w.pins 1, 1)]]

/-- The transfer coefficient of a waveguide: the negation of the `pins[0]`
coefficient of its single field equation. -/
noncomputable def Waveguide.transfer_coefficient (w : Waveguide) (ω : ℝ) : ℂ :=
  -((((w.field_equations ω).headD []).headD (0, 0)).2)

/-- `Source` (src/structures.py lines 57-78): a 1-pin boundary structure
holding a complex `amplitude` and a `phase` parameter. -/
structure Source where
  amplitude : ℂ
  phase : ℝ
  pin : Pin

def Source.num_pins : ℕ := 1

def Source.num_equations : ℕ := 1

/-- `Source.field_equations` (lines 70-73): the single equation
`pins[0] ↦ 1`. -/
def Source.field_equations (s : Source) : List FieldEquation :=
  [[(s.pin, 1)]]

/-- `Source.ordinate_vector` (lines 75-78): `[self.amplitude]`. -/
def Source.ordinate_vector (s : Source) : List ℂ :=
  [s.amplitude]

/-- `DirectionalCoupler` (src/structures.py lines 81-134): a 4-pin leaf
structure whose constructor stores the complex cross-coupling coefficient
`kappa` and self-coupling coefficient `sigma`. -/
structure DirectionalCoupler where
  kappa : ℂ
  sigma : ℂ
  pins : Fin 4 → Pin

def DirectionalCoupler.num_pins : ℕ := 4

def DirectionalCoupler.num_equations : ℕ := 2

/-- `DirectionalCoupler.__init__` (lines 108-117):
`kappa = κ * exp(1j*cross_coupling_phase)` and
`sigma = sqrt(1 - κ²) * exp(1j*self_coupling_phase)`.
`Real.sqrt` agrees with `np.sqrt` on nonnegative radicands, i.e. for every
`κ ∈ [-1, 1]` (for `κ` outside that interval `np.sqrt` returns NaN with a
runtime warning and no exception; no claim below depends on that value). -/
noncomputable def DirectionalCoupler.init
    (cross_coupling_coefficient self_coupling_phase cross_coupling_phase : ℝ)
    (pins : Fin 4 → Pin) : DirectionalCoupler :=
  { kappa := (cross_coupling_coefficient : ℂ)
      * Complex.exp (Complex.I * (cross_coupling_phase : ℝ))
    sigma := (Real.sqrt (1 - cross_coupling_coefficient ^ 2) : ℂ)
      * Complex.exp (Complex.I * (self_coupling_phase : ℝ))
    pins := pins }

/-- Construction of a `DirectionalCoupler`, with the error channel made
explicit: the constructor body (lines 108-117) contains no validation,
`raise` or assert, and `np.sqrt` of a negative argument yields NaN without
raising, so construction succeeds for every real parameter value. -/
noncomputable def DirectionalCoupler.try_init
    (cross_coupling_coefficient self_coupling_phase cross_coupling_phase : ℝ)
    (pins : Fin 4 → Pin) : Except String DirectionalCoupler :=
  Except.ok (DirectionalCoupler.init cross_coupling_coefficient
    self_coupling_phase cross_coupling_phase pins)

/-- `DirectionalCoupler.field_equations` (lines 123-134): the two rows of
the 2×2 scattering relation. -/
noncomputable def DirectionalCoupler.field_equations (d : DirectionalCoupler) :
    List FieldEquation :=
  [[(d.pins 0, d.sigma), (d.pins 1, d.kappa), (d.pins 2, -1)],
   [(d.pins 0, -(star d.kappa)), (d.pins 1, star d.sigma), (d.pins 3, -1)]]

/-- A child entry of a composite's `structures` list: in the Python code the
list holds heterogeneous structure objects; here it is a sum of the three
leaf types that appear as children in `src/structures.py`. -/
inductive ChildStructure where
  | coupler (d : DirectionalCoupler)
  | waveguide (w : Waveguide)
  | source (s : Source)

/-- Field equations contributed by one child, per frequency sample. -/
noncomputable def ChildStructure.field_equations :
    ChildStructure → ℝ → List FieldEquation
  | .coupler d, _ => d.field_equations
  | .waveguide w, ω => w.field_equations ω
  | .source s, _ => s.field_equations

/-- The pins of one child, in the order of its `pins` sequence. -/
def ChildStructure.pin_list : ChildStructure → List Pin
  | .coupler d => List.ofFn d.pins
  | .waveguide w => List.ofFn w.pins
  | .source s => [s.pin]

/-- General composition rule (spec §4.3): a composite's `field_equations`
is the flattened concatenation of every child's `field_equations`. -/
noncomputable def flattened_field_equations
    (structures : List ChildStructure) (ω : ℝ) : List FieldEquation :=
  (structures.map fun s => s.field_equations ω).flatten

/-- The set of distinct pins appearing anywhere in a list of children
(spec §3: the solvability invariant counts *distinct* pins). -/
def distinct_pins (structures : List ChildStructure) : Finset Pin :=
  ((structures.map ChildStructure.pin_list).flatten).toFinset

/-- Error message of the structural-validation failure (spec §7). -/
def structural_validation_error : String :=
  "structural-validation error: equation count does not equal distinct pin count"

/-- Modelled from the spec: the solve entry point behind the `fields`
property lives in the missing `src/base.py`. Per §4.4 and §7, an
equation-count/distinct-pin-count mismatch must be detected before any
numerical solve is attempted and reported as a structural-validation error;
the numerical solve itself is abstracted as the thunk `numerical_solve`,
forced only after the validation passes. -/
noncomputable def fields_checked (structures : List ChildStructure) (ω : ℝ)
    (numerical_solve : Unit → List (List ℂ)) : Except String (List (List ℂ)) :=
  if (flattened_field_equations structures ω).length
      = (distinct_pins structures).card then
    Except.ok (numerical_solve ())
  else
    Except.error structural_validation_error

/-- `RingResonator` (src/structures.py lines 137-169): a 4-pin composite.
The dispersion/loss attributes passed to `CompositeStructure.__init__` are
kept as fields; `num_pins = 4`, `num_equations = 3`. -/
structure RingResonator where
  radius : ℝ
  cross_coupling_coefficient : ℝ
  effective_refractive_index : ℝ
  group_refractive_index : ℝ
  GVD : ℝ
  loss_dB : ℝ
  central_wavelength : ℝ
  angular_frequencies : List ℝ
  pins : Fin 4 → Pin

def RingResonator.num_pins : ℕ := 4

def RingResonator.num_equations : ℕ := 3

/-- First child (line 158): `DirectionalCoupler(self.cross_coupling_coefficient,
pins=self.pins)`, with the constructor defaults `self_coupling_phase = 0`
and `cross_coupling_phase = π/2` (lines 111-112). -/
noncomputable def RingResonator.coupler (r : RingResonator) : DirectionalCoupler :=
  DirectionalCoupler.init r.cross_coupling_coefficient 0 (Real.pi / 2) r.pins

/-- Second child (lines 159-168): the waveguide closing the ring, of length
`2π·radius`, sharing the composite's dispersion/loss attributes, wired on
the existing pins `[self.pins[3], self.pins[1]]`. -/
noncomputable def RingResonator.ring_waveguide (r : RingResonator) : Waveguide :=
  { length := 2 * Real.pi * r.radius
    effective_refractive_index := r.effective_refractive_index
    group_refractive_index := r.group_refractive_index
    GVD := r.GVD
    loss_dB := r.loss_dB
    central_wavelength := r.central_wavelength
    angular_frequencies := r.angular_frequencies
    pins := ![r.pins 3, r.pins 1] }

/-- `self.structures` of a `RingResonator` (lines 157-169). -/
noncomputable def RingResonator.structures (r : RingResonator) : List ChildStructure :=
  [ChildStructure.coupler r.coupler, ChildStructure.waveguide r.ring_waveguide]

/-- The flattened field equations of a `RingResonator` (spec §4.3). -/
noncomputable def RingResonator.field_equations (r : RingResonator) (ω : ℝ) :
    List FieldEquation :=
  flattened_field_equations r.structures ω

/-- `AddDropFilter` (src/structures.py lines 198-255): an 8-pin composite;
`num_pins = 8`, `num_equations = 6`. -/
structure AddDropFilter where
  radius : ℝ
  input_cross_coupling_coefficient : ℝ
  auxiliary_cross_coupling_coefficient : ℝ
  effective_refractive_index : ℝ
  group_refractive_index : ℝ
  GVD : ℝ
  loss_dB : ℝ
  central_wavelength : ℝ
  angular_frequencies : List ℝ
  pins : Fin 8 → Pin

def AddDropFilter.num_pins : ℕ := 8

def AddDropFilter.num_equations : ℕ := 6

/-- First child (line 221): `DirectionalCoupler(self.input_cross_coupling_coefficient,
pins=self.pins[:4])`. -/
noncomputable def AddDropFilter.input_coupler (f : AddDropFilter) : DirectionalCoupler :=
  DirectionalCoupler.init f.input_cross_coupling_coefficient 0 (Real.pi / 2)
    (fun i => f.pins (Fin.castAdd 4 i))

/-- Second child (line 222): `DirectionalCoupler(self.auxiliary_cross_coupling_coefficient,
pins=self.pins[4:])`. -/
noncomputable def AddDropFilter.auxiliary_coupler (f : AddDropFilter) : DirectionalCoupler :=
  DirectionalCoupler.init f.auxiliary_cross_coupling_coefficient 0 (Real.pi / 2)
    (fun i => f.pins (Fin.addNat i 4))

/-- Third child (lines 223-232): half-ring waveguide of length `π·radius`
on pins `[self.pins[3], self.pins[5]]`. -/
noncomputable def AddDropFilter.first_half_waveguide (f : AddDropFilter) : Waveguide :=
  { length := f.radius * Real.pi
    effective_refractive_index := f.effective_refractive_index
    group_refractive_index := f.group_refractive_index
    GVD := f.GVD
    loss_dB := f.loss_dB
    central_wavelength := f.central_wavelength
    angular_frequencies := f.angular_frequencies
    pins := ![f.pins 3, f.pins 5] }

/-- Fourth child (lines 233-242): half-ring waveguide of length `π·radius`
on pins `[self.pins[7], self.pins[1]]`. -/
noncomputable def AddDropFilter.second_half_waveguide (f : AddDropFilter) : Waveguide :=
  { length := f.radius * Real.pi
    effective_refractive_index := f.effective_refractive_index
    group_refractive_index := f.group_refractive_index
    GVD := f.GVD
    loss_dB := f.loss_dB
    central_wavelength := f.central_wavelength
    angular_frequencies := f.angular_frequencies
    pins := ![f.pins 7, f.pins 1] }

/-- `self.structures` of an `AddDropFilter` (lines 220-243). -/
noncomputable def AddDropFilter.structures (f : AddDropFilter) : List ChildStructure :=
  [ChildStructure.coupler f.input_coupler,
   ChildStructure.coupler f.auxiliary_coupler,
   ChildStructure.waveguide f.first_half_waveguide,
   ChildStructure.waveguide f.second_half_waveguide]

/-- `AddDropFilter.field_enhancement` (lines 249-251):
`np.abs(self.fields[:, 3])`. The `fields` property (the solved
frequency × pin array) lives in the missing base module and is taken here
as an explicit argument, indexed by frequency sample and pin identity. -/
noncomputable def AddDropFilter.field_enhancement
    (fields : ℕ → ℕ → ℂ) (i : ℕ) : ℝ :=
  Complex.abs (fields i 3)

/-- `AddDropFilter.transmission` (lines 253-255):
`np.power(np.abs(self.fields[:, 6]), 2)`, with `fields` as in
`AddDropFilter.field_enhancement`. -/
noncomputable def AddDropFilter.transmission
    (fields : ℕ → ℕ → ℂ) (i : ℕ) : ℝ :=
  Complex.abs (fields i 6) ^ 2

/-- A concrete lossless waveguide used to instantiate theorems. -/
def wg_zero_loss : Waveguide :=
  { length := 2, effective_refractive_index := 1, group_refractive_index := 1,
    GVD := 0, loss_dB := 0, central_wavelength := 1,
    angular_frequencies := [5], pins := ![0, 1] }

/-- A concrete lossy waveguide (10 dB/m, the source default) used to
instantiate theorems. -/
def wg_lossy : Waveguide :=
  { length := 2, effective_refractive_index := 1, group_refractive_index := 1,
    GVD := 0, loss_dB := 10, central_wavelength := 1,
    angular_frequencies := [5], pins := ![0, 1] }

/-- A concrete ring resonator used to instantiate theorems. -/
def ring_example : RingResonator :=
  { radius := 1, cross_coupling_coefficient := 1,
    effective_refractive_index := 2, group_refractive_index := 3,
    GVD := 0, loss_dB := 10, central_wavelength := 1,
    angular_frequencies := [1], pins := ![0, 1, 2, 3] }

/-- A concrete add-drop filter used to instantiate theorems. -/
def adf_example : AddDropFilter :=
  { radius := 1, input_cross_coupling_coefficient := 1,
    auxiliary_cross_coupling_coefficient := 1,
    effective_refractive_index := 2, group_refractive_index := 3,
    GVD := 0, loss_dB := 10, central_wavelength := 1,
    angular_frequencies := [1], pins := ![0, 1, 2, 3, 4, 5, 6, 7] }

/-- The amplitude-loss factor `exp(-loss_dB·ln 10/20·length)` computed by
the code equals the decibel form `10^(-loss_dB·length/20)`. -/
theorem loss_amplitude_eq_rpow (w : Waveguide) :
    w.loss_amplitude_coefficient = (10 : ℝ) ^ (-(w.loss_dB * w.length) / 20) := by
  rw [Real.rpow_def_of_pos (by norm_num : (0 : ℝ) < 10)]
  unfold Waveguide.loss_amplitude_coefficient
  rw [Real.exp_eq_exp]
  ring

/-- The magnitude of a waveguide's transfer coefficient is exactly its
amplitude-loss factor (the phase factor has unit magnitude). -/
theorem transfer_coefficient_abs (w : Waveguide) (ω : ℝ) :
    Complex.abs (w.transfer_coefficient ω) = w.loss_amplitude_coefficient := by
  have h : Complex.I * ((w.wavevector ω : ℝ) : ℂ) * ((w.length : ℝ) : ℂ)
      = ((w.wavevector ω * w.length : ℝ) : ℂ) * Complex.I := by
    push_cast; ring
  unfold Waveguide.transfer_coefficient Waveguide.field_equations
  simp only [List.headD_cons]
  simp only [neg_mul, neg_neg]
  rw [h, map_mul, Complex.abs_ofReal, Complex.abs_exp_ofReal_mul_I, mul_one,
    abs_of_pos (show (0 : ℝ) < w.loss_amplitude_coefficient from Real.exp_pos _)]

/-- Claim C1: for every `Waveguide` and every swept angular frequency `ω`,
`field_equations` returns exactly one equation mapping `pins[0]` to
`-a·exp(i·k(ω)·L)` and `pins[1]` to `1`, where the amplitude-loss factor is
`a = 10^(-loss_dB·L/20)` and `k(ω)` is the second-order Taylor expansion of
the wavevector around the central frequency `ω0 = 2πc/λ0`: zero-order term
`n_eff·ω0/c`, first-order term `n_g·(ω-ω0)/c`, second-order term
`(GVD/2)·(ω-ω0)²`. -/
theorem waveguide_field_equation_formula (w : Waveguide) (ω : ℝ)
    (_hω : ω ∈ w.angular_frequencies) :
    w.field_equations ω =
      [[(w.pins 0,
          -((((10 : ℝ) ^ (-(w.loss_dB * w.length) / 20) : ℝ)) : ℂ)
            * Complex.exp (Complex.I
                * ((w.effective_refractive_index
                      * (2 * Real.pi * c / w.central_wavelength) / c
                    + w.group_refractive_index
                      * (ω - 2 * Real.pi * c / w.central_wavelength) / c
                    + w.GVD / 2
                      * (ω - 2 * Real.pi * c / w.central_wavelength) ^ 2 : ℝ) : ℂ)
                * ((w.length : ℝ) : ℂ))),
        (w.pins 1, 1)]] := by
  have hK : w.wavevector ω
      = w.effective_refractive_index * (2 * Real.pi * c / w.central_wavelength) / c
        + w.group_refractive_index * (ω - 2 * Real.pi * c / w.central_wavelength) / c
        + w.GVD / 2 * (ω - 2 * Real.pi * c / w.central_wavelength) ^ 2 := by
    unfold Waveguide.wavevector Waveguide.central_frequency
    ring
  unfold Waveguide.field_equations
  rw [loss_amplitude_eq_rpow, hK]

/-- Witness for claim C1 at a concrete waveguide and a frequency of its
sweep. -/
theorem waveguide_field_equation_formula_witness :
    (wg_zero_loss.field_equations 5).length = 1 := by
  rw [waveguide_field_equation_formula wg_zero_loss 5 (by simp [wg_zero_loss])]
  rfl

/-- Claim C5: the magnitude of a waveguide's transfer coefficient (the
negated `pin_in` coefficient of its single field equation) equals `1` when
`loss_dB = 0` and `10^(-loss_dB·L/20)` when `loss_dB > 0`, the same value
at every frequency. -/
theorem waveguide_transfer_coefficient_magnitude (w : Waveguide) (ω ω2 : ℝ) :
    (w.loss_dB = 0 → Complex.abs (w.transfer_coefficient ω) = 1) ∧
    (0 < w.loss_dB →
      Complex.abs (w.transfer_coefficient ω)
        = (10 : ℝ) ^ (-(w.loss_dB * w.length) / 20)) ∧
    Complex.abs (w.transfer_coefficient ω)
      = Complex.abs (w.transfer_coefficient ω2) := by
  refine ⟨?_, ?_, ?_⟩
  · intro h0
    rw [transfer_coefficient_abs]
    unfold Waveguide.loss_amplitude_coefficient
    rw [h0]
    norm_num
  · intro _
    rw [transfer_coefficient_abs, loss_amplitude_eq_rpow]
  · rw [transfer_coefficient_abs, transfer_coefficient_abs]

/-- Witness for claim C5: a lossless waveguide has unit transfer magnitude
and a 10 dB/m one has magnitude `10^(-loss_dB·L/20)`. -/
theorem waveguide_transfer_coefficient_magnitude_witness :
    Complex.abs (wg_zero_loss.transfer_coefficient 5) = 1 ∧
    Complex.abs (wg_lossy.transfer_coefficient 5)
      = (10 : ℝ) ^ (-(wg_lossy.loss_dB * wg_lossy.length) / 20) :=
  ⟨(waveguide_transfer_coefficient_magnitude wg_zero_loss 5 5).1 rfl,
   (waveguide_transfer_coefficient_magnitude wg_lossy 5 5).2.1
     (by norm_num [wg_lossy])⟩

/-- Claim C4: for every cross-coupling magnitude `κ ∈ [0,1]` and any
phases, the coupler's coefficients `σ = sqrt(1-κ²)·e^(iφ_self)` and
`k = κ·e^(iφ_cross)` satisfy `|σ|² + |k|² = 1`. -/
theorem directional_coupler_unitarity
    (κ φs φc : ℝ) (pins : Fin 4 → Pin) (h0 : 0 ≤ κ) (h1 : κ ≤ 1) :
    Complex.abs (DirectionalCoupler.init κ φs φc pins).sigma ^ 2
      + Complex.abs (DirectionalCoupler.init κ φs φc pins).kappa ^ 2 = 1 := by
  have hre : ∀ x : ℝ, Complex.abs (Complex.exp (Complex.I * (x : ℂ))) = 1 := by
    intro x
    rw [show Complex.I * (x : ℂ) = (x : ℂ) * Complex.I from by ring,
      Complex.abs_exp_ofReal_mul_I]
  unfold DirectionalCoupler.init
  simp only [map_mul, Complex.abs_ofReal, hre, mul_one]
  rw [abs_of_nonneg (Real.sqrt_nonneg _), abs_of_nonneg h0,
    Real.sq_sqrt (by nlinarith)]
  ring

/-- Witness for claim C4 at `κ = 1`. -/
theorem directional_coupler_unitarity_witness :
    Complex.abs (DirectionalCoupler.init 1 0 0 (fun _ => 0)).sigma ^ 2
      + Complex.abs (DirectionalCoupler.init 1 0 0 (fun _ => 0)).kappa ^ 2 = 1 :=
  directional_coupler_unitarity 1 0 0 (fun _ => 0) (by norm_num) (by norm_num)

/-- Any field equation evaluates to zero at the all-zero amplitude
assignment. -/
theorem eval_zero (e : FieldEquation) : FieldEquation.eval e (fun _ => 0) = 0 := by
  unfold FieldEquation.eval
  simp

/-- Claim C2: a `DirectionalCoupler` built from magnitude `κ` and phases
`φ_self`, `φ_cross` has exactly the two field equations
`pin0 ↦ σ, pin1 ↦ k, pin2 ↦ -1` and
`pin0 ↦ -conj k, pin1 ↦ conj σ, pin3 ↦ -1` with `k = κ·e^(iφ_cross)` and
`σ = sqrt(1-κ²)·e^(iφ_self)` (the second the complex-conjugate-symmetric
complement of the first), and any amplitudes satisfying them obey the 2×2
scattering relation `A2 = σ·A0 + k·A1`, `A3 = -conj(k)·A0 + conj(σ)·A1`. -/
theorem directional_coupler_scattering
    (κ φs φc : ℝ) (pins : Fin 4 → Pin) (A : Pin → ℂ)
    (h : ∀ e ∈ (DirectionalCoupler.init κ φs φc pins).field_equations,
      FieldEquation.eval e A = 0) :
    (DirectionalCoupler.init κ φs φc pins).field_equations =
      [[(pins 0, (Real.sqrt (1 - κ ^ 2) : ℂ) * Complex.exp (Complex.I * (φs : ℝ))),
        (pins 1, (κ : ℂ) * Complex.exp (Complex.I * (φc : ℝ))),
        (pins 2, -1)],
       [(pins 0, -star ((κ : ℂ) * Complex.exp (Complex.I * (φc : ℝ)))),
        (pins 1, star ((Real.sqrt (1 - κ ^ 2) : ℂ) * Complex.exp (Complex.I * (φs : ℝ)))),
        (pins 3, -1)]] ∧
    A (pins 2) = (DirectionalCoupler.init κ φs φc pins).sigma * A (pins 0)
      + (DirectionalCoupler.init κ φs φc pins).kappa * A (pins 1) ∧
    A (pins 3) = -star (DirectionalCoupler.init κ φs φc pins).kappa * A (pins 0)
      + star (DirectionalCoupler.init κ φs φc pins).sigma * A (pins 1) := by
  have h1 := h [(pins 0, (DirectionalCoupler.init κ φs φc pins).sigma),
      (pins 1, (DirectionalCoupler.init κ φs φc pins).kappa), (pins 2, -1)]
    (by simp [DirectionalCoupler.field_equations, DirectionalCoupler.init])
  have h2 := h [(pins 0, -star (DirectionalCoupler.init κ φs φc pins).kappa),
      (pins 1, star (DirectionalCoupler.init κ φs φc pins).sigma), (pins 3, -1)]
    (by simp [DirectionalCoupler.field_equations, DirectionalCoupler.init])
  simp only [FieldEquation.eval, List.map_cons, List.map_nil, List.sum_cons,
    List.sum_nil, add_zero] at h1 h2
  refine ⟨rfl, ?_, ?_⟩
  · linear_combination -h1
  · linear_combination -h2

/-- Witness for claim C2: the all-zero amplitude assignment satisfies the
equations of the coupler with `κ = 0` and zero phases, so the scattering
relation holds there. -/
theorem directional_coupler_scattering_witness :
    (0 : ℂ) = (DirectionalCoupler.init 0 0 0 (fun _ => 0)).sigma * 0
      + (DirectionalCoupler.init 0 0 0 (fun _ => 0)).kappa * 0 :=
  (directional_coupler_scattering 0 0 0 (fun _ => 0) (fun _ => 0)
    (fun e _ => eval_zero e)).2.1

/-- Claim C3: a `RingResonator` exposes 4 pins and contributes exactly 3
field equations: 2 from a single `DirectionalCoupler` built on the ring's
own four pins and 1 from a single `Waveguide` of length `2π·radius` whose
two pins are the looped pins `pins[3]` and `pins[1]` of the coupler, not
newly allocated ones. -/
theorem ring_resonator_composition (r : RingResonator) (ω : ℝ) :
    r.structures = [ChildStructure.coupler
        (DirectionalCoupler.init r.cross_coupling_coefficient 0 (Real.pi / 2) r.pins),
      ChildStructure.waveguide r.ring_waveguide] ∧
    r.coupler.pins = r.pins ∧
    r.ring_waveguide.length = 2 * Real.pi * r.radius ∧
    r.ring_waveguide.pins = ![r.pins 3, r.pins 1] ∧
    r.field_equations ω
      = r.coupler.field_equations ++ r.ring_waveguide.field_equations ω ∧
    (r.field_equations ω).length = 3 ∧
    r.coupler.field_equations.length = 2 ∧
    (r.ring_waveguide.field_equations ω).length = 1 :=
  ⟨rfl, rfl, rfl, rfl, rfl, rfl, rfl, rfl⟩

/-- Claim C6: the derived series of an `AddDropFilter` are indexed slices
of the solved field array: `transmission` is the squared magnitude of the
field at pin identity 6, `field_enhancement` the magnitude at pin
identity 3. -/
theorem add_drop_filter_derived_series (fields : ℕ → ℕ → ℂ) (i : ℕ) :
    AddDropFilter.transmission fields i = Complex.abs (fields i 6) ^ 2 ∧
    AddDropFilter.field_enhancement fields i = Complex.abs (fields i 3) :=
  ⟨rfl, rfl⟩

/-- Claim C7: every child `Waveguide` in the `structures` list of a
`RingResonator` or an `AddDropFilter` is constructed with exactly the
composite's own effective refractive index, group refractive index, GVD
coefficient, loss, central wavelength and angular-frequency sweep. -/
theorem composite_attribute_propagation (r : RingResonator) (f : AddDropFilter) :
    (∀ w : Waveguide, ChildStructure.waveguide w ∈ r.structures →
      w.effective_refractive_index = r.effective_refractive_index ∧
      w.group_refractive_index = r.group_refractive_index ∧
      w.GVD = r.GVD ∧ w.loss_dB = r.loss_dB ∧
      w.central_wavelength = r.central_wavelength ∧
      w.angular_frequencies = r.angular_frequencies) ∧
    (∀ w : Waveguide, ChildStructure.waveguide w ∈ f.structures →
      w.effective_refractive_index = f.effective_refractive_index ∧
      w.group_refractive_index = f.group_refractive_index ∧
      w.GVD = f.GVD ∧ w.loss_dB = f.loss_dB ∧
      w.central_wavelength = f.central_wavelength ∧
      w.angular_frequencies = f.angular_frequencies) := by
  constructor
  · intro w hw
    simp only [RingResonator.structures, List.mem_cons, List.not_mem_nil,
      or_false, reduceCtorEq, false_or, ChildStructure.waveguide.injEq] at hw
    subst hw
    exact ⟨rfl, rfl, rfl, rfl, rfl, rfl⟩
  · intro w hw
    simp only [AddDropFilter.structures, List.mem_cons, List.not_mem_nil,
      or_false, reduceCtorEq, false_or, ChildStructure.waveguide.injEq] at hw
    rcases hw with hw | hw
    all_goals subst hw
    all_goals exact ⟨rfl, rfl, rfl, rfl, rfl, rfl⟩

/-- Witness for claim C7: the ring-closing waveguide of a concrete
`RingResonator` carries the composite's attributes. -/
theorem composite_attribute_propagation_witness :
    ring_example.ring_waveguide.effective_refractive_index
        = ring_example.effective_refractive_index ∧
    ring_example.ring_waveguide.group_refractive_index
        = ring_example.group_refractive_index ∧
    ring_example.ring_waveguide.GVD = ring_example.GVD ∧
    ring_example.ring_waveguide.loss_dB = ring_example.loss_dB ∧
    ring_example.ring_waveguide.central_wavelength
        = ring_example.central_wavelength ∧
    ring_example.ring_waveguide.angular_frequencies
        = ring_example.angular_frequencies :=
  (composite_attribute_propagation ring_example adf_example).1
    ring_example.ring_waveguide (by simp [RingResonator.structures])

/-- Claim C8, amended: constructing a `DirectionalCoupler` with a
cross-coupling coefficient outside `[0, 1]` raises no error at all — the
constructor performs no domain validation (and `np.sqrt` of the then
negative radicand yields NaN with only a runtime warning), so construction
succeeds for every real coefficient. -/
theorem directional_coupler_construction_total
    (κ φs φc : ℝ) (pins : Fin 4 → Pin) :
    (DirectionalCoupler.try_init κ φs φc pins).isOk = true := rfl

/-- Counterexample to claim C8 as stated: at the concrete out-of-domain
coefficient `κ = 2`, construction does not raise a parameter-domain error;
it succeeds and yields a coupler with its two field equations. -/
theorem directional_coupler_no_construction_error_at_two :
    (DirectionalCoupler.try_init 2 0 0 (fun _ => 0)).isOk = true ∧
    (DirectionalCoupler.init 2 0 0 (fun _ => 0)).field_equations.length = 2 :=
  ⟨rfl, rfl⟩

/-- Claim C9: for any structure whose recursively flattened equation count
is smaller than its number of distinct pins, requesting the solved fields
yields the structural-validation error, independently of the numerical
solve (which is never forced). -/
theorem underdetermined_structure_fails_fast
    (structures : List ChildStructure) (ω : ℝ)
    (numerical_solve : Unit → List (List ℂ))
    (h : (flattened_field_equations structures ω).length
      < (distinct_pins structures).card) :
    fields_checked structures ω numerical_solve
      = Except.error structural_validation_error := by
  unfold fields_checked
  rw [if_neg (Nat.ne_of_lt h)]

/-- Witness for claim C9: a concrete `RingResonator` with no appended
`Source` has 3 flattened equations over 4 distinct pins, and requesting
its fields yields the structural-validation error. -/
theorem underdetermined_structure_fails_fast_witness :
    fields_checked ring_example.structures 1 (fun _ => [])
      = Except.error structural_validation_error :=
  underdetermined_structure_fails_fast ring_example.structures 1 (fun _ => [])
    (by
      have h1 : (flattened_field_equations ring_example.structures 1).length = 3 := rfl
      have h2 : (distinct_pins ring_example.structures).card = 4 := rfl
      rw [h1, h2]
      norm_num)

/-- Claim C10: two `Source` instances on the same pin with the same
amplitude but different phases have identical `field_equations` (always
`pin ↦ 1`) and identical `ordinate_vector` (always `[amplitude]`): the
phase parameter has no effect on either observable output. -/
theorem source_phase_unobservable (amp : ℂ) (ph1 ph2 : ℝ) (p : Pin) :
    (Source.mk amp ph1 p).field_equations = (Source.mk amp ph2 p).field_equations ∧
    (Source.mk amp ph1 p).ordinate_vector = (Source.mk amp ph2 p).ordinate_vector :=
  ⟨rfl, rfl⟩
